import Mathlib

/-!
# Shallow embedding of the ILI9488 8080 STM32 driver (ili9488.c / ili9488.h)

The driver talks to the display through three kinds of externally observable
actions: an 8-bit command transaction, an 18-bit data transaction (both via the
parallel bus with CS/DCX framing), a blocking millisecond delay (HAL_Delay),
and the RESET pin level changes during init.  We record these as a trace of
events.

The only piece of driver state is the global `ili9488_rotation`; every public
operation is embedded as a function from that state (a `Nat`, the numeric value
of the `ILI9488_Rotation_t` global) to the pair (new state, emitted trace).
Machine integers are modelled as `Nat` with explicit reduction modulo 2^16
where the C code truncates to `uint16_t`.
-/

/-- An externally observable action of the driver:
a command transaction (`ILI9488_WriteCommand`), a data transaction
(`ILI9488_WriteData`), a blocking delay (`HAL_Delay`), or a RESET-pin level
change during the hardware reset pulse. -/
inductive Ev where
  | cmd (b : Nat)
  | data (d : Nat)
  | delay (ms : Nat)
  | resetPin (high : Bool)
deriving DecidableEq, Repr

/-! ## Constants from ili9488.h / ili9488.c -/

def CMD_SLEEP_IN : Nat := 0x10
def CMD_SLEEP_OUT : Nat := 0x11
def CMD_DISPLAY_OFF : Nat := 0x28
def CMD_DISPLAY_ON : Nat := 0x29
def CMD_MEMORY_WRITE : Nat := 0x2C
def CMD_COLUMN_ADDR : Nat := 0x2A
def CMD_PAGE_ADDR : Nat := 0x2B
def CMD_MEMORY_ACCESS : Nat := 0x36
def CMD_PIXEL_FORMAT : Nat := 0x3A

def ILI9488_PORTRAIT_WIDTH : Nat := 320
def ILI9488_PORTRAIT_HEIGHT : Nat := 480
def ILI9488_LANDSCAPE_WIDTH : Nat := 480
def ILI9488_LANDSCAPE_HEIGHT : Nat := 320

/-- `ILI9488_Rotation_t` enumerators. -/
def ILI9488_ROTATION_PORTRAIT : Nat := 0
def ILI9488_ROTATION_LANDSCAPE : Nat := 1
def ILI9488_ROTATION_PORTRAIT_INV : Nat := 2
def ILI9488_ROTATION_LANDSCAPE_INV : Nat := 3

/-- MADCTL byte table `ili9488_rotations[4]`. -/
def ili9488_rotations : List Nat := [0x48, 0x28, 0x88, 0xE8]

/-- Truncation to `uint16_t`: the C code passes `int` expressions into
`uint16_t` parameters, which reduces them modulo 2^16. -/
def u16 (n : Nat) : Nat := n % 65536

/-- `uint16_t` value of the `int` expression `n - 1` for `n : Nat`
(only `n = 0` makes the `int` negative, and `-1` truncates to 65535). -/
def u16sub1 (n : Nat) : Nat := (n + 65535) % 65536

/-! ## Transaction layer

`ILI9488_WriteCommand` drives CS/DCX and strobes one command byte;
`ILI9488_WriteData` drives CS/DCX and strobes one 18-bit data word.  At the
trace level each is a single event carrying the argument word. -/

def ILI9488_WriteCommand (c : Nat) : List Ev := [Ev.cmd c]

def ILI9488_WriteData (d : Nat) : List Ev := [Ev.data d]

/-! ## Addressing & drawing primitives

Each function takes the current value of the global `ili9488_rotation` as its
first argument `s` and returns (new global value, trace).  None of the drawing
functions assigns the global, so they all return `s` unchanged, exactly as the
C bodies do. -/

/-- `ILI9488_SetAddressWindow(x0,y0,x1,y1)`: column-address command with the
x-range bytes and page-address command with the y-range bytes in the
portrait family, the two ranges exchanged in the landscape family, then the
memory-write command.  Any other rotation value matches neither branch and
the function does nothing. -/
def ILI9488_SetAddressWindow (s x0 y0 x1 y1 : Nat) : Nat × List Ev :=
  if s = ILI9488_ROTATION_PORTRAIT ∨ s = ILI9488_ROTATION_PORTRAIT_INV then
    (s, ILI9488_WriteCommand CMD_COLUMN_ADDR
        ++ ILI9488_WriteData (x0 >>> 8) ++ ILI9488_WriteData (x0 &&& 0xFF)
        ++ ILI9488_WriteData (x1 >>> 8) ++ ILI9488_WriteData (x1 &&& 0xFF)
        ++ ILI9488_WriteCommand CMD_PAGE_ADDR
        ++ ILI9488_WriteData (y0 >>> 8) ++ ILI9488_WriteData (y0 &&& 0xFF)
        ++ ILI9488_WriteData (y1 >>> 8) ++ ILI9488_WriteData (y1 &&& 0xFF)
        ++ ILI9488_WriteCommand CMD_MEMORY_WRITE)
  else if s = ILI9488_ROTATION_LANDSCAPE ∨ s = ILI9488_ROTATION_LANDSCAPE_INV then
    (s, ILI9488_WriteCommand CMD_COLUMN_ADDR
        ++ ILI9488_WriteData (y0 >>> 8) ++ ILI9488_WriteData (y0 &&& 0xFF)
        ++ ILI9488_WriteData (y1 >>> 8) ++ ILI9488_WriteData (y1 &&& 0xFF)
        ++ ILI9488_WriteCommand CMD_PAGE_ADDR
        ++ ILI9488_WriteData (x0 >>> 8) ++ ILI9488_WriteData (x0 &&& 0xFF)
        ++ ILI9488_WriteData (x1 >>> 8) ++ ILI9488_WriteData (x1 &&& 0xFF)
        ++ ILI9488_WriteCommand CMD_MEMORY_WRITE)
  else (s, [])

/-- `ILI9488_DrawPixel(x,y,color)`: single-point window `(x,y,x,y)` in the
portrait family, `(y,x,y,x)` in the landscape family, then one data word
`color & 0x3FFFF`. -/
def ILI9488_DrawPixel (s x y color : Nat) : Nat × List Ev :=
  if s = ILI9488_ROTATION_PORTRAIT ∨ s = ILI9488_ROTATION_PORTRAIT_INV then
    ((ILI9488_SetAddressWindow s x y x y).fst,
     (ILI9488_SetAddressWindow s x y x y).snd ++ ILI9488_WriteData (color &&& 0x3FFFF))
  else if s = ILI9488_ROTATION_LANDSCAPE ∨ s = ILI9488_ROTATION_LANDSCAPE_INV then
    ((ILI9488_SetAddressWindow s y x y x).fst,
     (ILI9488_SetAddressWindow s y x y x).snd ++ ILI9488_WriteData (color &&& 0x3FFFF))
  else (s, [])

/-- `ILI9488_DrawLine(x0,y0,x1,y1,color)`: window from the two endpoints
(swapped in the landscape family), then a loop of WIDTH*HEIGHT data writes of
`color & 0x3FFFF` (the replicate models the `for` loop of single-word
`ILI9488_WriteData` calls). -/
def ILI9488_DrawLine (s x0 y0 x1 y1 color : Nat) : Nat × List Ev :=
  if s = ILI9488_ROTATION_PORTRAIT ∨ s = ILI9488_ROTATION_PORTRAIT_INV then
    ((ILI9488_SetAddressWindow s x0 y0 x1 y1).fst,
     (ILI9488_SetAddressWindow s x0 y0 x1 y1).snd
       ++ List.replicate (ILI9488_PORTRAIT_WIDTH * ILI9488_PORTRAIT_HEIGHT)
            (Ev.data (color &&& 0x3FFFF)))
  else if s = ILI9488_ROTATION_LANDSCAPE ∨ s = ILI9488_ROTATION_LANDSCAPE_INV then
    ((ILI9488_SetAddressWindow s y0 x0 y1 x1).fst,
     (ILI9488_SetAddressWindow s y0 x0 y1 x1).snd
       ++ List.replicate (ILI9488_LANDSCAPE_WIDTH * ILI9488_LANDSCAPE_HEIGHT)
            (Ev.data (color &&& 0x3FFFF)))
  else (s, [])

/-- `ILI9488_DrawRect(x,y,w,h,color)`: window `(x,y,x+w-1,y+h-1)` (swapped in
the landscape family, whose loop bound is written `h*w` in the source), then
`w*h` data writes of the masked color.  The `x+w-1` arguments are `int`
expressions truncated to the `uint16_t` parameters, hence `u16sub1`. -/
def ILI9488_DrawRect (s x y w h color : Nat) : Nat × List Ev :=
  if s = ILI9488_ROTATION_PORTRAIT ∨ s = ILI9488_ROTATION_PORTRAIT_INV then
    ((ILI9488_SetAddressWindow s x y (u16sub1 (x + w)) (u16sub1 (y + h))).fst,
     (ILI9488_SetAddressWindow s x y (u16sub1 (x + w)) (u16sub1 (y + h))).snd
       ++ List.replicate (w * h) (Ev.data (color &&& 0x3FFFF)))
  else if s = ILI9488_ROTATION_LANDSCAPE ∨ s = ILI9488_ROTATION_LANDSCAPE_INV then
    ((ILI9488_SetAddressWindow s y x (u16sub1 (y + h)) (u16sub1 (x + w))).fst,
     (ILI9488_SetAddressWindow s y x (u16sub1 (y + h)) (u16sub1 (x + w))).snd
       ++ List.replicate (h * w) (Ev.data (color &&& 0x3FFFF)))
  else (s, [])

/-- `ILI9488_FillRect(x,y,w,h,color)`: same shape as `ILI9488_DrawRect` in the
source, body for body. -/
def ILI9488_FillRect (s x y w h color : Nat) : Nat × List Ev :=
  if s = ILI9488_ROTATION_PORTRAIT ∨ s = ILI9488_ROTATION_PORTRAIT_INV then
    ((ILI9488_SetAddressWindow s x y (u16sub1 (x + w)) (u16sub1 (y + h))).fst,
     (ILI9488_SetAddressWindow s x y (u16sub1 (x + w)) (u16sub1 (y + h))).snd
       ++ List.replicate (w * h) (Ev.data (color &&& 0x3FFFF)))
  else if s = ILI9488_ROTATION_LANDSCAPE ∨ s = ILI9488_ROTATION_LANDSCAPE_INV then
    ((ILI9488_SetAddressWindow s y x (u16sub1 (y + h)) (u16sub1 (x + w))).fst,
     (ILI9488_SetAddressWindow s y x (u16sub1 (y + h)) (u16sub1 (x + w))).snd
       ++ List.replicate (h * w) (Ev.data (color &&& 0x3FFFF)))
  else (s, [])

/-- `ILI9488_DrawCircle(x0,y0,radius,color)`: window
`(x0,y0,x0+radius,y0+radius)` (swapped in the landscape family), then
WIDTH*HEIGHT data writes of the masked color.  `x0+radius` is an `int`
expression truncated into a `uint16_t` parameter, hence `u16`. -/
def ILI9488_DrawCircle (s x0 y0 radius color : Nat) : Nat × List Ev :=
  if s = ILI9488_ROTATION_PORTRAIT ∨ s = ILI9488_ROTATION_PORTRAIT_INV then
    ((ILI9488_SetAddressWindow s x0 y0 (u16 (x0 + radius)) (u16 (y0 + radius))).fst,
     (ILI9488_SetAddressWindow s x0 y0 (u16 (x0 + radius)) (u16 (y0 + radius))).snd
       ++ List.replicate (ILI9488_PORTRAIT_WIDTH * ILI9488_PORTRAIT_HEIGHT)
            (Ev.data (color &&& 0x3FFFF)))
  else if s = ILI9488_ROTATION_LANDSCAPE ∨ s = ILI9488_ROTATION_LANDSCAPE_INV then
    ((ILI9488_SetAddressWindow s y0 x0 (u16 (y0 + radius)) (u16 (x0 + radius))).fst,
     (ILI9488_SetAddressWindow s y0 x0 (u16 (y0 + radius)) (u16 (x0 + radius))).snd
       ++ List.replicate (ILI9488_LANDSCAPE_WIDTH * ILI9488_LANDSCAPE_HEIGHT)
            (Ev.data (color &&& 0x3FFFF)))
  else (s, [])

/-- `ILI9488_FillCircle(x0,y0,radius,color)`: identical body to
`ILI9488_DrawCircle` in the source. -/
def ILI9488_FillCircle (s x0 y0 radius color : Nat) : Nat × List Ev :=
  if s = ILI9488_ROTATION_PORTRAIT ∨ s = ILI9488_ROTATION_PORTRAIT_INV then
    ((ILI9488_SetAddressWindow s x0 y0 (u16 (x0 + radius)) (u16 (y0 + radius))).fst,
     (ILI9488_SetAddressWindow s x0 y0 (u16 (x0 + radius)) (u16 (y0 + radius))).snd
       ++ List.replicate (ILI9488_PORTRAIT_WIDTH * ILI9488_PORTRAIT_HEIGHT)
            (Ev.data (color &&& 0x3FFFF)))
  else if s = ILI9488_ROTATION_LANDSCAPE ∨ s = ILI9488_ROTATION_LANDSCAPE_INV then
    ((ILI9488_SetAddressWindow s y0 x0 (u16 (y0 + radius)) (u16 (x0 + radius))).fst,
     (ILI9488_SetAddressWindow s y0 x0 (u16 (y0 + radius)) (u16 (x0 + radius))).snd
       ++ List.replicate (ILI9488_LANDSCAPE_WIDTH * ILI9488_LANDSCAPE_HEIGHT)
            (Ev.data (color &&& 0x3FFFF)))
  else (s, [])

/-- `ILI9488_FillBackground(color)`: full-extent window for the current
orientation family and WIDTH*HEIGHT data writes of the masked color. -/
def ILI9488_FillBackground (s color : Nat) : Nat × List Ev :=
  if s = ILI9488_ROTATION_PORTRAIT ∨ s = ILI9488_ROTATION_PORTRAIT_INV then
    ((ILI9488_SetAddressWindow s 0 0 (ILI9488_PORTRAIT_WIDTH - 1) (ILI9488_PORTRAIT_HEIGHT - 1)).fst,
     (ILI9488_SetAddressWindow s 0 0 (ILI9488_PORTRAIT_WIDTH - 1) (ILI9488_PORTRAIT_HEIGHT - 1)).snd
       ++ List.replicate (ILI9488_PORTRAIT_WIDTH * ILI9488_PORTRAIT_HEIGHT)
            (Ev.data (color &&& 0x3FFFF)))
  else if s = ILI9488_ROTATION_LANDSCAPE ∨ s = ILI9488_ROTATION_LANDSCAPE_INV then
    ((ILI9488_SetAddressWindow s 0 0 (ILI9488_LANDSCAPE_WIDTH - 1) (ILI9488_LANDSCAPE_HEIGHT - 1)).fst,
     (ILI9488_SetAddressWindow s 0 0 (ILI9488_LANDSCAPE_WIDTH - 1) (ILI9488_LANDSCAPE_HEIGHT - 1)).snd
       ++ List.replicate (ILI9488_LANDSCAPE_WIDTH * ILI9488_LANDSCAPE_HEIGHT)
            (Ev.data (color &&& 0x3FFFF)))
  else (s, [])

/-! ## Rotation and lifecycle -/

/-- `ILI9488_SetRotation(rotation)`: clamps its local parameter to Portrait
when it exceeds `ILI9488_ROTATION_LANDSCAPE_INV`, then sends the
memory-access-control command and the MADCTL table byte.  The body contains
no assignment to the global `ili9488_rotation`, so the state passes through
unchanged. -/
def ILI9488_SetRotation (s rotation : Nat) : Nat × List Ev :=
  (s, ILI9488_WriteCommand CMD_MEMORY_ACCESS
      ++ ILI9488_WriteData
          (ili9488_rotations.getD
            (if ILI9488_ROTATION_LANDSCAPE_INV < rotation then ILI9488_ROTATION_PORTRAIT
             else rotation) 0))

/-- `ILI9488_Init(rotation)`: hardware reset pulse, sleep-out, pixel format
0x66, `ILI9488_SetRotation(rotation)`, then the assignment
`ili9488_rotation = rotation` (the raw argument, after the register write),
display-on.  The returned state is therefore the raw `rotation`. -/
def ILI9488_Init (s rotation : Nat) : Nat × List Ev :=
  (rotation,
   [Ev.resetPin false, Ev.delay 20, Ev.resetPin true, Ev.delay 120]
     ++ ILI9488_WriteCommand CMD_SLEEP_OUT ++ [Ev.delay 120]
     ++ ILI9488_WriteCommand CMD_PIXEL_FORMAT ++ ILI9488_WriteData 0x66
     ++ (ILI9488_SetRotation s rotation).snd
     ++ ILI9488_WriteCommand CMD_DISPLAY_ON ++ [Ev.delay 20])

/-- `ILI9488_DisplayOff`: display-off command, 20 ms delay. -/
def ILI9488_DisplayOff (s : Nat) : Nat × List Ev :=
  (s, ILI9488_WriteCommand CMD_DISPLAY_OFF ++ [Ev.delay 20])

/-- `ILI9488_DisplayOn`: display-on command, 20 ms delay. -/
def ILI9488_DisplayOn (s : Nat) : Nat × List Ev :=
  (s, ILI9488_WriteCommand CMD_DISPLAY_ON ++ [Ev.delay 20])

/-- `ILI9488_Sleep`: `ILI9488_DisplayOff()`, sleep-in command, 120 ms delay. -/
def ILI9488_Sleep (s : Nat) : Nat × List Ev :=
  ((ILI9488_DisplayOff s).fst,
   (ILI9488_DisplayOff s).snd ++ ILI9488_WriteCommand CMD_SLEEP_IN ++ [Ev.delay 120])

/-- `ILI9488_WakeUp`: `ILI9488_DisplayOn()`, sleep-out command, 20 ms delay. -/
def ILI9488_WakeUp (s : Nat) : Nat × List Ev :=
  ((ILI9488_DisplayOn s).fst,
   (ILI9488_DisplayOn s).snd ++ ILI9488_WriteCommand CMD_SLEEP_OUT ++ [Ev.delay 20])

/-! ## Helper lemmas (shared) -/

/-- Out-of-range rotation arguments hit the clamp in `ILI9488_SetRotation`,
so the register byte sent is the Portrait entry 0x48. -/
theorem setRotation_snd_of_ge (s r : Nat) (h : 4 ≤ r) :
    (ILI9488_SetRotation s r).snd = [Ev.cmd CMD_MEMORY_ACCESS, Ev.data 0x48] := by
  unfold ILI9488_SetRotation
  rw [if_pos (show ILI9488_ROTATION_LANDSCAPE_INV < r from h)]
  rfl

/-- C5 theorem: for each of the four enumerated rotation values,
`ILI9488_SetRotation` emits exactly the command byte 0x36 followed by exactly
the fixed table byte (0x48, 0x28, 0x88, 0xE8), and every input value ≥ 4 is
clamped to the Portrait entry 0x48. -/
theorem setRotation_sends_madctl_table (s r : Nat) :
    (ILI9488_SetRotation s ILI9488_ROTATION_PORTRAIT).snd =
      [Ev.cmd CMD_MEMORY_ACCESS, Ev.data 0x48] ∧
    (ILI9488_SetRotation s ILI9488_ROTATION_LANDSCAPE).snd =
      [Ev.cmd CMD_MEMORY_ACCESS, Ev.data 0x28] ∧
    (ILI9488_SetRotation s ILI9488_ROTATION_PORTRAIT_INV).snd =
      [Ev.cmd CMD_MEMORY_ACCESS, Ev.data 0x88] ∧
    (ILI9488_SetRotation s ILI9488_ROTATION_LANDSCAPE_INV).snd =
      [Ev.cmd CMD_MEMORY_ACCESS, Ev.data 0xE8] ∧
    (4 ≤ r → (ILI9488_SetRotation s r).snd = [Ev.cmd CMD_MEMORY_ACCESS, Ev.data 0x48]) :=
  ⟨rfl, rfl, rfl, rfl, fun h => setRotation_snd_of_ge s r h⟩

/-- C5 witness: concrete instance at rotation 7 (≥ 4), clamped to 0x48. -/
theorem setRotation_sends_madctl_table_witness :
    4 ≤ 7 ∧ (ILI9488_SetRotation 0 7).snd = [Ev.cmd CMD_MEMORY_ACCESS, Ev.data 0x48] :=
  ⟨by decide, (setRotation_sends_madctl_table 0 7).2.2.2.2 (by decide)⟩

/-- C8 theorem: `ILI9488_DrawRect` and `ILI9488_FillRect` produce the same
state and the same command/data trace at every rotation state and all
arguments: DrawRect behaves as a filled rectangle, not an outline. -/
theorem drawRect_eq_fillRect (s x y w h c : Nat) :
    ILI9488_DrawRect s x y w h c = ILI9488_FillRect s x y w h c := rfl

/-- C9 theorem: `ILI9488_Sleep` followed by `ILI9488_WakeUp` emits exactly
display-off (0x28), sleep-in (0x10), display-on (0x29), sleep-out (0x11) in
that order, with delays 20 ms, 120 ms, 20 ms and 20 ms after the respective
commands — meeting the ≥20/≥120/≥20/≥20 ms minimums. -/
theorem sleep_then_wakeUp_order_and_delays (s : Nat) :
    (ILI9488_Sleep s).snd ++ (ILI9488_WakeUp (ILI9488_Sleep s).fst).snd =
      [Ev.cmd CMD_DISPLAY_OFF, Ev.delay 20, Ev.cmd CMD_SLEEP_IN, Ev.delay 120,
       Ev.cmd CMD_DISPLAY_ON, Ev.delay 20, Ev.cmd CMD_SLEEP_OUT, Ev.delay 20] := rfl

/-- C10 theorem: when the stored rotation is outside {0,1,2,3} — reachable,
since `ILI9488_Init` stores its raw argument (last conjunct) — the
address-window operation and every drawing primitive match neither rotation
branch, emit no event at all, and return the state unchanged. -/
theorem invalid_rotation_silent_noop (s x y z w c : Nat)
    (hs : ¬(s = ILI9488_ROTATION_PORTRAIT ∨ s = ILI9488_ROTATION_LANDSCAPE ∨
            s = ILI9488_ROTATION_PORTRAIT_INV ∨ s = ILI9488_ROTATION_LANDSCAPE_INV)) :
    ILI9488_SetAddressWindow s x y z w = (s, []) ∧
    ILI9488_DrawPixel s x y c = (s, []) ∧
    ILI9488_DrawLine s x y z w c = (s, []) ∧
    ILI9488_DrawRect s x y z w c = (s, []) ∧
    ILI9488_FillRect s x y z w c = (s, []) ∧
    ILI9488_DrawCircle s x y z c = (s, []) ∧
    ILI9488_FillCircle s x y z c = (s, []) ∧
    ILI9488_FillBackground s c = (s, []) ∧
    (ILI9488_Init s 4).fst = 4 := by
  push_neg at hs
  obtain ⟨h0, h1, h2, h3⟩ := hs
  refine ⟨?_, ?_, ?_, ?_, ?_, ?_, ?_, ?_, rfl⟩ <;>
    simp [ILI9488_SetAddressWindow, ILI9488_DrawPixel, ILI9488_DrawLine, ILI9488_DrawRect,
          ILI9488_FillRect, ILI9488_DrawCircle, ILI9488_FillCircle, ILI9488_FillBackground,
          h0, h1, h2, h3]

/-- C10 witness: the invalid state 4 (as stored by `ILI9488_Init _ 4`) makes
every primitive a silent no-op. -/
theorem invalid_rotation_silent_noop_witness :
    ¬((4:Nat) = ILI9488_ROTATION_PORTRAIT ∨ (4:Nat) = ILI9488_ROTATION_LANDSCAPE ∨
      (4:Nat) = ILI9488_ROTATION_PORTRAIT_INV ∨ (4:Nat) = ILI9488_ROTATION_LANDSCAPE_INV) ∧
    (ILI9488_SetAddressWindow 4 10 20 30 40 = (4, []) ∧
     ILI9488_DrawPixel 4 10 20 5 = (4, []) ∧
     ILI9488_DrawLine 4 10 20 30 40 5 = (4, []) ∧
     ILI9488_DrawRect 4 10 20 30 40 5 = (4, []) ∧
     ILI9488_FillRect 4 10 20 30 40 5 = (4, []) ∧
     ILI9488_DrawCircle 4 10 20 30 5 = (4, []) ∧
     ILI9488_FillCircle 4 10 20 30 5 = (4, []) ∧
     ILI9488_FillBackground 4 5 = (4, []) ∧
     (ILI9488_Init 4 4).fst = 4) :=
  ⟨by decide, invalid_rotation_silent_noop 4 10 20 30 40 5 (by decide)⟩

/-- C1 counterexample: `init(Portrait)` then `SetRotation(Landscape)` leaves
the stored rotation at Portrait, not Landscape — `ILI9488_SetRotation` never
assigns the global — so the subsequent `DrawPixel(10,20,·)` observes Portrait
and issues the unswapped single-point window (10,20,10,20). -/
theorem setRotation_state_not_updated_counterexample :
    (ILI9488_SetRotation (ILI9488_Init 0 ILI9488_ROTATION_PORTRAIT).fst
        ILI9488_ROTATION_LANDSCAPE).fst ≠ ILI9488_ROTATION_LANDSCAPE ∧
    (ILI9488_SetRotation (ILI9488_Init 0 ILI9488_ROTATION_PORTRAIT).fst
        ILI9488_ROTATION_LANDSCAPE).fst = ILI9488_ROTATION_PORTRAIT := by
  refine ⟨by decide, rfl⟩

/-- C1 amended theorem: `ILI9488_SetRotation` passes the stored rotation
through unchanged; only `ILI9488_Init` assigns it (to its raw argument), and
that stored value is what a later `DrawPixel` observes: after
`init(Portrait); SetRotation(Landscape)`, `DrawPixel(10,20,c)` issues the
unswapped portrait window quadruple (10,20,10,20) and one masked data word. -/
theorem rotation_state_updated_only_by_init (s r c : Nat) :
    (ILI9488_SetRotation s r).fst = s ∧
    (ILI9488_Init s r).fst = r ∧
    (ILI9488_DrawPixel
        ((ILI9488_SetRotation ((ILI9488_Init s ILI9488_ROTATION_PORTRAIT).fst)
            ILI9488_ROTATION_LANDSCAPE).fst) 10 20 c).snd =
      (ILI9488_SetAddressWindow ILI9488_ROTATION_PORTRAIT 10 20 10 20).snd
        ++ [Ev.data (c &&& 0x3FFFF)] :=
  ⟨rfl, rfl, rfl⟩

/-- C2 counterexample: `ILI9488_Init` stores its raw argument after the
(clamped) register write, so `init(4)` leaves the stored rotation at 4,
outside the four enumerated values, even though the MADCTL byte sent was the
clamped Portrait entry 0x48. -/
theorem init_stores_raw_rotation_counterexample :
    (ILI9488_Init 0 4).fst = 4 ∧
    ¬((ILI9488_Init 0 4).fst = ILI9488_ROTATION_PORTRAIT ∨
      (ILI9488_Init 0 4).fst = ILI9488_ROTATION_LANDSCAPE ∨
      (ILI9488_Init 0 4).fst = ILI9488_ROTATION_PORTRAIT_INV ∨
      (ILI9488_Init 0 4).fst = ILI9488_ROTATION_LANDSCAPE_INV) ∧
    Ev.data 0x48 ∈ (ILI9488_Init 0 4).snd := by
  refine ⟨rfl, by decide, by decide⟩

/-- C2 amended theorem: clamping applies only to the MADCTL register byte.
The stored state is assigned only by `ILI9488_Init`, which stores its raw
argument, so the four-value invariant holds after `init(r)` exactly when
`r < 4`; `ILI9488_SetRotation` leaves the stored state unchanged and clamps
register bytes for inputs ≥ 4. -/
theorem rotation_state_invariant_amended (s r r2 : Nat) (h : r < 4) :
    (ILI9488_Init s r).fst = r ∧
    ((ILI9488_Init s r).fst = ILI9488_ROTATION_PORTRAIT ∨
     (ILI9488_Init s r).fst = ILI9488_ROTATION_LANDSCAPE ∨
     (ILI9488_Init s r).fst = ILI9488_ROTATION_PORTRAIT_INV ∨
     (ILI9488_Init s r).fst = ILI9488_ROTATION_LANDSCAPE_INV) ∧
    (ILI9488_SetRotation s r2).fst = s ∧
    (4 ≤ r2 → (ILI9488_SetRotation s r2).snd =
      [Ev.cmd CMD_MEMORY_ACCESS, Ev.data 0x48]) := by
  refine ⟨rfl, ?_, rfl, fun h2 => setRotation_snd_of_ge s r2 h2⟩
  interval_cases r
  · exact Or.inl rfl
  · exact Or.inr (Or.inl rfl)
  · exact Or.inr (Or.inr (Or.inl rfl))
  · exact Or.inr (Or.inr (Or.inr rfl))

/-- C2 witness: concrete instance at `init(2)` and `SetRotation(_, 9)`. -/
theorem rotation_state_invariant_amended_witness :
    (2:Nat) < 4 ∧
    ((ILI9488_Init 0 2).fst = 2 ∧
     ((ILI9488_Init 0 2).fst = ILI9488_ROTATION_PORTRAIT ∨
      (ILI9488_Init 0 2).fst = ILI9488_ROTATION_LANDSCAPE ∨
      (ILI9488_Init 0 2).fst = ILI9488_ROTATION_PORTRAIT_INV ∨
      (ILI9488_Init 0 2).fst = ILI9488_ROTATION_LANDSCAPE_INV) ∧
     (ILI9488_SetRotation 0 9).fst = 0 ∧
     (4 ≤ 9 → (ILI9488_SetRotation 0 9).snd =
       [Ev.cmd CMD_MEMORY_ACCESS, Ev.data 0x48])) :=
  ⟨by decide, rotation_state_invariant_amended 0 2 9 (by decide)⟩

/-- C6 theorem: for in-range coordinates at any of the four rotation states,
`ILI9488_DrawPixel` passes the single point to the address window unswapped
(portrait family) or swapped to `(y,x,y,x)` (landscape family), and in both
cases the emitted transactions are the column bytes of x, the page bytes of
y, the memory-write command, and exactly one data word `c & 0x3FFFF`. -/
theorem drawPixel_single_point_window (s x y c : Nat) (hs : s < 4)
    (hx : x < if s = ILI9488_ROTATION_LANDSCAPE ∨ s = ILI9488_ROTATION_LANDSCAPE_INV
              then ILI9488_LANDSCAPE_WIDTH else ILI9488_PORTRAIT_WIDTH)
    (hy : y < if s = ILI9488_ROTATION_LANDSCAPE ∨ s = ILI9488_ROTATION_LANDSCAPE_INV
              then ILI9488_LANDSCAPE_HEIGHT else ILI9488_PORTRAIT_HEIGHT) :
    ((s = ILI9488_ROTATION_PORTRAIT ∨ s = ILI9488_ROTATION_PORTRAIT_INV) →
      (ILI9488_DrawPixel s x y c).snd =
        (ILI9488_SetAddressWindow s x y x y).snd ++ [Ev.data (c &&& 0x3FFFF)]) ∧
    ((s = ILI9488_ROTATION_LANDSCAPE ∨ s = ILI9488_ROTATION_LANDSCAPE_INV) →
      (ILI9488_DrawPixel s x y c).snd =
        (ILI9488_SetAddressWindow s y x y x).snd ++ [Ev.data (c &&& 0x3FFFF)]) ∧
    (ILI9488_DrawPixel s x y c).snd =
      [Ev.cmd CMD_COLUMN_ADDR, Ev.data (x >>> 8), Ev.data (x &&& 0xFF),
       Ev.data (x >>> 8), Ev.data (x &&& 0xFF),
       Ev.cmd CMD_PAGE_ADDR, Ev.data (y >>> 8), Ev.data (y &&& 0xFF),
       Ev.data (y >>> 8), Ev.data (y &&& 0xFF),
       Ev.cmd CMD_MEMORY_WRITE, Ev.data (c &&& 0x3FFFF)] := by
  interval_cases s
  · exact ⟨fun _ => rfl, fun h => absurd h (by decide), rfl⟩
  · exact ⟨fun h => absurd h (by decide), fun _ => rfl, rfl⟩
  · exact ⟨fun _ => rfl, fun h => absurd h (by decide), rfl⟩
  · exact ⟨fun h => absurd h (by decide), fun _ => rfl, rfl⟩

/-- C6 witness: landscape state 1, pixel (10,20), color 0x123456. -/
theorem drawPixel_single_point_window_witness :
    (1:Nat) < 4 ∧ (10:Nat) < 480 ∧ (20:Nat) < 320 ∧
    (ILI9488_DrawPixel 1 10 20 0x123456).snd =
      [Ev.cmd CMD_COLUMN_ADDR, Ev.data 0, Ev.data 10, Ev.data 0, Ev.data 10,
       Ev.cmd CMD_PAGE_ADDR, Ev.data 0, Ev.data 20, Ev.data 0, Ev.data 20,
       Ev.cmd CMD_MEMORY_WRITE, Ev.data 0x23456] :=
  ⟨by decide, by decide, by decide,
   (drawPixel_single_point_window 1 10 20 0x123456 (by decide) (by decide) (by decide)).2.2⟩

/-- C7 theorem: at each of the four rotation states, `ILI9488_FillBackground`
emits a window spanning (0,0)-(width-1,height-1) of the dimensions of the
active family — column bytes (0,0,1,0x3F) encoding 0..319 and page bytes
(0,0,1,0xDF) encoding 0..479 in the portrait family, the same wire bytes via
the swapped branch in the landscape family — followed by exactly
width*height (= 153600 for both 320×480 and 480×320) data writes of
`c & 0x3FFFF`. -/
theorem fillBackground_full_extent (s c : Nat) (hs : s < 4) :
    ((s = ILI9488_ROTATION_PORTRAIT ∨ s = ILI9488_ROTATION_PORTRAIT_INV) →
      (ILI9488_FillBackground s c).snd =
        [Ev.cmd CMD_COLUMN_ADDR, Ev.data 0, Ev.data 0, Ev.data 1, Ev.data 0x3F,
         Ev.cmd CMD_PAGE_ADDR, Ev.data 0, Ev.data 0, Ev.data 1, Ev.data 0xDF,
         Ev.cmd CMD_MEMORY_WRITE]
          ++ List.replicate (ILI9488_PORTRAIT_WIDTH * ILI9488_PORTRAIT_HEIGHT)
               (Ev.data (c &&& 0x3FFFF))) ∧
    ((s = ILI9488_ROTATION_LANDSCAPE ∨ s = ILI9488_ROTATION_LANDSCAPE_INV) →
      (ILI9488_FillBackground s c).snd =
        (ILI9488_SetAddressWindow s 0 0 (ILI9488_LANDSCAPE_WIDTH - 1)
            (ILI9488_LANDSCAPE_HEIGHT - 1)).snd
          ++ List.replicate (ILI9488_LANDSCAPE_WIDTH * ILI9488_LANDSCAPE_HEIGHT)
               (Ev.data (c &&& 0x3FFFF))) ∧
    ILI9488_PORTRAIT_WIDTH * ILI9488_PORTRAIT_HEIGHT = 153600 ∧
    ILI9488_LANDSCAPE_WIDTH * ILI9488_LANDSCAPE_HEIGHT = 153600 := by
  interval_cases s
  · exact ⟨fun _ => rfl, fun h => absurd h (by decide), by decide, by decide⟩
  · exact ⟨fun h => absurd h (by decide), fun _ => rfl, by decide, by decide⟩
  · exact ⟨fun _ => rfl, fun h => absurd h (by decide), by decide, by decide⟩
  · exact ⟨fun h => absurd h (by decide), fun _ => rfl, by decide, by decide⟩

/-- C7 witness: landscape-inverted state 3. -/
theorem fillBackground_full_extent_witness :
    (3:Nat) < 4 ∧
    (ILI9488_FillBackground 3 0x3FFFFF).snd =
      (ILI9488_SetAddressWindow 3 0 0 479 319).snd
        ++ List.replicate 153600 (Ev.data 0x3FFFF) :=
  ⟨by decide, (fillBackground_full_extent 3 0x3FFFFF (by decide)).2.1 (by decide)⟩

/-- C4 theorem: `ILI9488_FillRect(x,y,w,h,c)` passes the window
`(x,y,x+w-1,y+h-1)` to the address-window operation unswapped in the portrait
family and with the axes swapped in the landscape family (coordinates
truncated to `uint16_t`, which is plain `x+w-1` whenever `1 ≤ x+w ≤ 65536`),
followed in both families by exactly `w*h` data writes of `c & 0x3FFFF`.
Concretely, after `init(Portrait)` (stored state 0),
`fillRect(0,0,320,480,0x3FFFFF)` emits one column-address transaction for
(0,319), one page-address transaction for (0,479), one memory-write command,
then exactly 153600 data writes of 0x3FFFF. -/
theorem fillRect_window_and_writes (s x y w h c : Nat) :
    ((s = ILI9488_ROTATION_PORTRAIT ∨ s = ILI9488_ROTATION_PORTRAIT_INV) →
      (ILI9488_FillRect s x y w h c).snd =
        (ILI9488_SetAddressWindow s x y (u16sub1 (x + w)) (u16sub1 (y + h))).snd
          ++ List.replicate (w * h) (Ev.data (c &&& 0x3FFFF))) ∧
    ((s = ILI9488_ROTATION_LANDSCAPE ∨ s = ILI9488_ROTATION_LANDSCAPE_INV) →
      (ILI9488_FillRect s x y w h c).snd =
        (ILI9488_SetAddressWindow s y x (u16sub1 (y + h)) (u16sub1 (x + w))).snd
          ++ List.replicate (w * h) (Ev.data (c &&& 0x3FFFF))) ∧
    (1 ≤ x + w → x + w ≤ 65536 → u16sub1 (x + w) = x + w - 1) ∧
    (ILI9488_Init s ILI9488_ROTATION_PORTRAIT).fst = 0 ∧
    (ILI9488_FillRect 0 0 0 320 480 0x3FFFFF).snd =
      [Ev.cmd CMD_COLUMN_ADDR, Ev.data 0, Ev.data 0, Ev.data 1, Ev.data 0x3F,
       Ev.cmd CMD_PAGE_ADDR, Ev.data 0, Ev.data 0, Ev.data 1, Ev.data 0xDF,
       Ev.cmd CMD_MEMORY_WRITE] ++ List.replicate 153600 (Ev.data 0x3FFFF) := by
  refine ⟨?_, ?_, ?_, rfl, rfl⟩
  · rintro (rfl | rfl)
    · rfl
    · rfl
  · rintro (rfl | rfl)
    · simp [ILI9488_FillRect, ILI9488_ROTATION_LANDSCAPE, ILI9488_ROTATION_PORTRAIT,
            ILI9488_ROTATION_PORTRAIT_INV, ILI9488_ROTATION_LANDSCAPE_INV, Nat.mul_comm]
    · simp [ILI9488_FillRect, ILI9488_ROTATION_LANDSCAPE, ILI9488_ROTATION_PORTRAIT,
            ILI9488_ROTATION_PORTRAIT_INV, ILI9488_ROTATION_LANDSCAPE_INV, Nat.mul_comm]
  · intro h1 h2
    unfold u16sub1
    omega

/-- C4 witness: portrait state, `fillRect(5,6,2,3,0x123456)`: window
(5,6,6,8), six data writes of the masked color; plus the in-range
truncation identity at 5+2. -/
theorem fillRect_window_and_writes_witness :
    ((0:Nat) = ILI9488_ROTATION_PORTRAIT ∨ (0:Nat) = ILI9488_ROTATION_PORTRAIT_INV) ∧
    (ILI9488_FillRect 0 5 6 2 3 0x123456).snd =
      (ILI9488_SetAddressWindow 0 5 6 6 8).snd
        ++ List.replicate 6 (Ev.data 0x23456) ∧
    ((1:Nat) ≤ 5 + 2 → (5:Nat) + 2 ≤ 65536 → u16sub1 (5 + 2) = 5 + 2 - 1) :=
  ⟨Or.inl rfl,
   (fillRect_window_and_writes 0 5 6 2 3 0x123456).1 (Or.inl rfl),
   (fillRect_window_and_writes 0 5 6 2 3 0x123456).2.2.1⟩

/-- C3 counterexample: in the portrait state, `drawLine(10,20,30,40,5)` does
not emit a window sized to the full panel extent (0,0)-(319,479); its window
comes from the endpoints, so the traces differ already at the column bytes. -/
theorem drawLine_window_not_full_panel_counterexample :
    (ILI9488_DrawLine 0 10 20 30 40 5).snd ≠
      (ILI9488_SetAddressWindow 0 0 0 (ILI9488_PORTRAIT_WIDTH - 1)
          (ILI9488_PORTRAIT_HEIGHT - 1)).snd
        ++ List.replicate (ILI9488_PORTRAIT_WIDTH * ILI9488_PORTRAIT_HEIGHT)
             (Ev.data 5) := by decide

/-- C3 amended theorem: `drawLine`, `drawCircle` and `fillCircle` each write
exactly width*height (= 153600 in both families) data words of `c & 0x3FFFF`,
covering the whole current-orientation screen, but the address window they
set first is not the full panel extent: `drawLine` passes its endpoints
(swapped in the landscape family) and the circle functions pass
`(x0,y0,x0+radius,y0+radius)` (swapped in the landscape family, truncated to
`uint16_t`). -/
theorem drawLine_circles_window_from_args (s x0 y0 x1 y1 r c : Nat) :
    ((s = ILI9488_ROTATION_PORTRAIT ∨ s = ILI9488_ROTATION_PORTRAIT_INV) →
      (ILI9488_DrawLine s x0 y0 x1 y1 c).snd =
        (ILI9488_SetAddressWindow s x0 y0 x1 y1).snd
          ++ List.replicate 153600 (Ev.data (c &&& 0x3FFFF)) ∧
      (ILI9488_DrawCircle s x0 y0 r c).snd =
        (ILI9488_SetAddressWindow s x0 y0 (u16 (x0 + r)) (u16 (y0 + r))).snd
          ++ List.replicate 153600 (Ev.data (c &&& 0x3FFFF)) ∧
      (ILI9488_FillCircle s x0 y0 r c).snd =
        (ILI9488_SetAddressWindow s x0 y0 (u16 (x0 + r)) (u16 (y0 + r))).snd
          ++ List.replicate 153600 (Ev.data (c &&& 0x3FFFF))) ∧
    ((s = ILI9488_ROTATION_LANDSCAPE ∨ s = ILI9488_ROTATION_LANDSCAPE_INV) →
      (ILI9488_DrawLine s x0 y0 x1 y1 c).snd =
        (ILI9488_SetAddressWindow s y0 x0 y1 x1).snd
          ++ List.replicate 153600 (Ev.data (c &&& 0x3FFFF)) ∧
      (ILI9488_DrawCircle s x0 y0 r c).snd =
        (ILI9488_SetAddressWindow s y0 x0 (u16 (y0 + r)) (u16 (x0 + r))).snd
          ++ List.replicate 153600 (Ev.data (c &&& 0x3FFFF)) ∧
      (ILI9488_FillCircle s x0 y0 r c).snd =
        (ILI9488_SetAddressWindow s y0 x0 (u16 (y0 + r)) (u16 (x0 + r))).snd
          ++ List.replicate 153600 (Ev.data (c &&& 0x3FFFF))) := by
  constructor
  · rintro (rfl | rfl) <;> exact ⟨rfl, rfl, rfl⟩
  · rintro (rfl | rfl) <;> exact ⟨rfl, rfl, rfl⟩

/-- C3 witness: portrait state, line (10,20)-(30,40) and circles centred at
(10,20) with radius 7, color 5. -/
theorem drawLine_circles_window_from_args_witness :
    ((0:Nat) = ILI9488_ROTATION_PORTRAIT ∨ (0:Nat) = ILI9488_ROTATION_PORTRAIT_INV) ∧
    ((ILI9488_DrawLine 0 10 20 30 40 5).snd =
       (ILI9488_SetAddressWindow 0 10 20 30 40).snd
         ++ List.replicate 153600 (Ev.data 5) ∧
     (ILI9488_DrawCircle 0 10 20 7 5).snd =
       (ILI9488_SetAddressWindow 0 10 20 17 27).snd
         ++ List.replicate 153600 (Ev.data 5) ∧
     (ILI9488_FillCircle 0 10 20 7 5).snd =
       (ILI9488_SetAddressWindow 0 10 20 17 27).snd
         ++ List.replicate 153600 (Ev.data 5)) :=
  ⟨Or.inl rfl, (drawLine_circles_window_from_args 0 10 20 30 40 7 5).1 (Or.inl rfl)⟩
